import Mathlib

/-!
Verification of the quantitative cyber-risk engine: the Monte-Carlo
Annualized-Loss-Expectancy simulator (`Task1` in
`cyberrisk_core/risk_metrics.py`) and the joint-probability analyzer
(`Task2` in `cyberrisk_core/prob_model.py` and `task2.py`).

Rational arithmetic (`ℚ`) embeds the parts of the code that use only
field operations and comparisons; the real numbers (`ℝ`) embed the
parts that use `sqrt`, `exp` and real powers.  Python runtime failures
(`ZeroDivisionError`, unpack errors) are modelled with `Except PyError`.
-/

/-- Runtime failures of the Python code.  `zeroDivision` carries the name of
the program point at which the division by zero happens.  The constructors
`parameterError` and `degenerateInputError` are modelled from the spec:
its §7 error taxonomy names `ParameterError` and `DegenerateInputError`,
neither of which is defined or raised anywhere in the source. -/
inductive PyError where
  | zeroDivision : String → PyError
  | valueError : String → PyError
  | parameterError : PyError
  | degenerateInputError : PyError
deriving DecidableEq, Repr

/-- Embeds `triangular_cdf(x, a, b, c)` of `risk_metrics.py` (lower bound
`a`, upper bound `b`, mode `c`).  The source guards are `x <= a`,
`a <= x <= c`, `c < x <= b`, else; after the first guard fails `a < x`
holds, so the remaining guards reduce to `x ≤ c` and `x ≤ b`. -/
def triangular_cdf {α : Type} [LinearOrderedField α] (x a b c : α) : α :=
  if x ≤ a then 0
  else if x ≤ c then (x - a) ^ 2 / ((b - a) * (c - a))
  else if x ≤ b then 1 - (b - x) ^ 2 / ((b - a) * (b - c))
  else 1

/-- Embeds the accumulation `MEAN_d += N_i * P_i` over
`zip(number_set, prob_set)` in `Task1`. -/
def occMean {α : Type} [LinearOrderedField α] (number_set : List ℤ)
    (prob_set : List α) : α :=
  (List.zipWith (fun (n : ℤ) (p : α) => (n : α) * p) number_set prob_set).sum

/-- Embeds the accumulation `E_X2 += (N_i**2) * P_i` in `Task1`. -/
def occE2 {α : Type} [LinearOrderedField α] (number_set : List ℤ)
    (prob_set : List α) : α :=
  (List.zipWith (fun (n : ℤ) (p : α) => (n : α) ^ 2 * p) number_set prob_set).sum

/-- Embeds `VARIANCE_d = E_X2 - (MEAN_d**2)` in `Task1`. -/
def occVariance {α : Type} [LinearOrderedField α] (number_set : List ℤ)
    (prob_set : List α) : α :=
  occE2 number_set prob_set - (occMean number_set prob_set) ^ 2

/-- Embeds `Task2(num, table, probs)` of `cyberrisk_core/prob_model.py`.
The `num` argument is accepted and, as in the source, never used: every
division uses the internally recomputed `total`.  A malformed shape, which
would make the Python unpacking fail, returns the junk value `(0, 0, 0)`;
all theorems below use well-formed shapes. -/
def Task2 (num : ℤ) (table : List (List ℤ)) (probs : List ℚ) : ℚ × ℚ × ℚ :=
  match table, probs with
  | [[a, b, c, d], [e, f, g, h], [i, j, k, l]],
      [PX2, PX3, PX4, PX5, PY6, PY7] =>
    let total : ℤ := a + b + c + d + e + f + g + h + i + j + k + l
    let X2 : ℤ := a + e + i
    let X3 : ℤ := b + f + j
    let X4 : ℤ := c + g + k
    let X5 : ℤ := d + h + l
    let Y6 : ℤ := a + b + c + d
    let Y7 : ℤ := e + f + g + h
    let Y8 : ℤ := i + j + k + l
    let prob1 : ℚ := ((X3 + X4 : ℤ) : ℚ) / (total : ℚ)
    let prob2 : ℚ := ((a + e + i + b + f + c : ℤ) : ℚ) / (total : ℚ)
    let PT_X : ℚ :=
      (PX2 * (X2 : ℚ) + PX3 * (X3 : ℚ) + PX4 * (X4 : ℚ) + PX5 * (X5 : ℚ)) /
        (total : ℚ)
    let PT_given_Y8 : ℚ :=
      (PT_X - (PY6 * (Y6 : ℚ) + PY7 * (Y7 : ℚ)) / (total : ℚ)) /
        ((Y8 : ℚ) / (total : ℚ))
    let prob3 : ℚ := (PT_given_Y8 * ((Y8 : ℚ) / (total : ℚ))) / PT_X
    (prob1, prob2, prob3)
  | _, _ => (0, 0, 0)

/-- Embeds the second `Task2(num, table, probs)` of `task2.py`, which
computes `PT_X`, `PT_given_Y8` and `prob3` without dividing by `total`
(the totals cancel).  `num` is again unused. -/
def Task2_script (num : ℤ) (table : List (List ℤ)) (probs : List ℚ) :
    ℚ × ℚ × ℚ :=
  match table, probs with
  | [[a, b, c, d], [e, f, g, h], [i, j, k, l]],
      [PX2, PX3, PX4, PX5, PY6, PY7] =>
    let total : ℤ := a + b + c + d + e + f + g + h + i + j + k + l
    let X2 : ℤ := a + e + i
    let X3 : ℤ := b + f + j
    let X4 : ℤ := c + g + k
    let X5 : ℤ := d + h + l
    let Y6 : ℤ := a + b + c + d
    let Y7 : ℤ := e + f + g + h
    let Y8 : ℤ := i + j + k + l
    let prob1 : ℚ := ((X3 + X4 : ℤ) : ℚ) / (total : ℚ)
    let prob2 : ℚ := ((a + e + i + b + f + c : ℤ) : ℚ) / (total : ℚ)
    let PT_X : ℚ :=
      PX2 * (X2 : ℚ) + PX3 * (X3 : ℚ) + PX4 * (X4 : ℚ) + PX5 * (X5 : ℚ)
    let PT_given_Y8 : ℚ :=
      (PT_X - (PY6 * (Y6 : ℚ) + PY7 * (Y7 : ℚ))) / (Y8 : ℚ)
    let prob3 : ℚ := (PT_given_Y8 * (Y8 : ℚ)) / PT_X
    (prob1, prob2, prob3)
  | _, _ => (0, 0, 0)

/-- Embeds `Task2` of `prob_model.py` together with the Python runtime
divisions that can fail: `prob1 = (X3+X4)/total` raises on `total = 0`,
`PT_given_Y8 = .../(Y8/total)` raises when `Y8/total = 0`, and
`prob3 = .../PT_X` raises when `PT_X = 0`.  The checks appear in the
evaluation order of the source. -/
def Task2E (num : ℤ) (table : List (List ℤ)) (probs : List ℚ) :
    Except PyError (ℚ × ℚ × ℚ) :=
  match table, probs with
  | [[a, b, c, d], [e, f, g, h], [i, j, k, l]],
      [PX2, PX3, PX4, PX5, PY6, PY7] =>
    let total : ℤ := a + b + c + d + e + f + g + h + i + j + k + l
    if total = 0 then Except.error (PyError.zeroDivision "prob1") else
    let X2 : ℤ := a + e + i
    let X3 : ℤ := b + f + j
    let X4 : ℤ := c + g + k
    let X5 : ℤ := d + h + l
    let Y6 : ℤ := a + b + c + d
    let Y7 : ℤ := e + f + g + h
    let Y8 : ℤ := i + j + k + l
    let prob1 : ℚ := ((X3 + X4 : ℤ) : ℚ) / (total : ℚ)
    let prob2 : ℚ := ((a + e + i + b + f + c : ℤ) : ℚ) / (total : ℚ)
    let PT_X : ℚ :=
      (PX2 * (X2 : ℚ) + PX3 * (X3 : ℚ) + PX4 * (X4 : ℚ) + PX5 * (X5 : ℚ)) /
        (total : ℚ)
    if (Y8 : ℚ) / (total : ℚ) = 0 then
      Except.error (PyError.zeroDivision "PT given Y8") else
    let PT_given_Y8 : ℚ :=
      (PT_X - (PY6 * (Y6 : ℚ) + PY7 * (Y7 : ℚ)) / (total : ℚ)) /
        ((Y8 : ℚ) / (total : ℚ))
    if PT_X = 0 then Except.error (PyError.zeroDivision "prob3") else
    let prob3 : ℚ := (PT_given_Y8 * ((Y8 : ℚ) / (total : ℚ))) / PT_X
    Except.ok (prob1, prob2, prob3)
  | _, _ => Except.error (PyError.valueError "unpack")

/-- Embeds `MEAN_t = (a + b + c) / 3.0` in `Task1`. -/
noncomputable def MEAN_t (a b c : ℝ) : ℝ := (a + b + c) / 3

/-- Embeds the median computation of `Task1`: `F_c = (c - a)/(b - a)`,
then the three branches on `|F_c - 0.5| < 1e-15`, `F_c > 0.5`, else. -/
noncomputable def MEDIAN_t (a b c : ℝ) : ℝ :=
  if |(c - a) / (b - a) - 0.5| < 1e-15 then c
  else if 0.5 < (c - a) / (b - a) then a + Real.sqrt (0.5 * (b - a) * (c - a))
  else b - Real.sqrt (0.5 * (b - a) * (b - c))

/-- Embeds `triangular_cdf` together with the Python divisions that raise
`ZeroDivisionError` when their denominator is zero. -/
noncomputable def triangular_cdfE (x a b c : ℝ) : Except PyError ℝ :=
  if x ≤ a then Except.ok 0
  else if x ≤ c then
    if (b - a) * (c - a) = 0 then
      Except.error (PyError.zeroDivision "triangular cdf left")
    else Except.ok ((x - a) ^ 2 / ((b - a) * (c - a)))
  else if x ≤ b then
    if (b - a) * (b - c) = 0 then
      Except.error (PyError.zeroDivision "triangular cdf right")
    else Except.ok (1 - (b - x) ^ 2 / ((b - a) * (b - c)))
  else Except.ok 1

/-- Embeds one Pareto draw `B = xm / ((1 - U)**(1.0 / alpha))` of the
Monte-Carlo loop, with the Python failure cases: `1.0 / alpha` raises on
`alpha = 0`, and `xm / 0.0` raises when the power evaluates to zero.
Real exponentiation (`Real.rpow`) models the float `**`. -/
noncomputable def paretoE (xm alpha u : ℝ) : Except PyError ℝ :=
  if alpha = 0 then Except.error (PyError.zeroDivision "pareto exponent")
  else if (1 - u) ^ (1 / alpha) = 0 then
    Except.error (PyError.zeroDivision "pareto ratio")
  else Except.ok (xm / (1 - u) ^ (1 / alpha))

/-- Embeds the Monte-Carlo loop body of `Task1`: for each pair of draws
`(z, u)` (a standard normal draw `z` so that `gauss(mu, sigma) = mu + sigma*z`,
and a uniform draw `u`), the total impact is
`exp(mu + sigma*z) + xm / (1 - u)**(1/alpha)`. -/
noncomputable def totalImpactsE (mu sigma xm alpha : ℝ) (zs us : List ℝ) :
    Except PyError (List ℝ) :=
  (List.zip zs us).mapM (fun zu => do
    let B ← paretoE xm alpha zu.2
    pure (Real.exp (mu + sigma * zu.1) + B))

/-- The same Monte-Carlo impacts when no draw fails. -/
noncomputable def total_impacts (mu sigma xm alpha : ℝ) (zs us : List ℝ) :
    List ℝ :=
  (List.zip zs us).map (fun zu =>
    Real.exp (mu + sigma * zu.1) + xm / (1 - zu.2) ^ (1 / alpha))

/-- Embeds `prob2 = count(total_impacts > point2) / float(num)` in `Task1`. -/
noncomputable def mcProb2 (point2 : ℝ) (impacts : List ℝ) (num : ℕ) : ℝ :=
  ((impacts.countP (fun v => decide (point2 < v)) : ℕ) : ℝ) / (num : ℝ)

/-- Embeds `prob3 = count(point3 <= total_impacts <= point4) / float(num)`
in `Task1`. -/
noncomputable def mcProb3 (point3 point4 : ℝ) (impacts : List ℝ) (num : ℕ) :
    ℝ :=
  ((impacts.countP (fun v => decide (point3 ≤ v ∧ v ≤ point4)) : ℕ) : ℝ) /
    (num : ℝ)

/-- Embeds `Task1` of `cyberrisk_core/risk_metrics.py` with the Python
runtime failures made explicit, in the evaluation order of the source:
the `triangular_cdf` call for `prob1`, then `MEAN_t`, then the `F_c`
division (raises when `b - a = 0`), then `MEDIAN_t`, the occurrence-table
mean/variance loop, the Monte-Carlo sampling loop, and finally `prob2`
and `prob3`, whose divisions by `float(num)` raise when `num = 0`.
The random draws of the loop are passed in as the lists `zs` (standard
normal) and `us` (uniform); the source draws `num` of each. -/
noncomputable def Task1E (a b c point1 : ℝ) (number_set : List ℤ)
    (prob_set : List ℝ) (num : ℕ) (point2 mu sigma xm alpha point3 point4 : ℝ)
    (zs us : List ℝ) : Except PyError (ℝ × ℝ × ℝ × ℝ × ℝ × ℝ × ℝ × ℝ) := do
  let prob1 ← triangular_cdfE point1 a b c
  let meanT := MEAN_t a b c
  if b - a = 0 then Except.error (PyError.zeroDivision "F c") else do
  let medianT := MEDIAN_t a b c
  let meanD := occMean number_set prob_set
  let varD := occVariance number_set prob_set
  let impacts ← totalImpactsE mu sigma xm alpha zs us
  if num = 0 then Except.error (PyError.zeroDivision "prob2") else do
  let prob2 := mcProb2 point2 impacts num
  let prob3 := mcProb3 point3 point4 impacts num
  let ale := meanD * (medianT * prob2)
  pure (prob1, meanT, medianT, meanD, varD, prob2, prob3, ale)

theorem mapM_ok {α β : Type} (f : α → Except PyError β) (g : α → β)
    (l : List α) (h : ∀ x ∈ l, f x = Except.ok (g x)) :
    l.mapM f = Except.ok (l.map g) := by
  induction l with
  | nil => rfl
  | cons x xs ih =>
    rw [List.mapM_cons, List.map_cons, h x (List.mem_cons_self x xs),
      ih (fun y hy => h y (List.mem_cons_of_mem x hy))]
    rfl

theorem ok_bind {α β : Type} (x : α) (f : α → Except PyError β) :
    (Except.ok x >>= f) = f x := rfl

theorem triangular_cdfE_ok (x a b c : ℝ) (hac : a ≤ c) (hcb : c ≤ b)
    (hab : a < b) :
    triangular_cdfE x a b c = Except.ok (triangular_cdf x a b c) := by
  unfold triangular_cdfE triangular_cdf
  split_ifs with h1 h2 h3 h4 h5 <;> try rfl
  · exact absurd h3 (by push_neg at h1; nlinarith)
  · exact absurd h5 (by push_neg at h1 h2; nlinarith)

theorem paretoE_ok (xm alpha u : ℝ) (halpha : alpha ≠ 0) (hu : u < 1) :
    paretoE xm alpha u = Except.ok (xm / (1 - u) ^ (1 / alpha)) := by
  unfold paretoE
  rw [if_neg halpha,
    if_neg (ne_of_gt (Real.rpow_pos_of_pos (by linarith) (1 / alpha)))]

theorem totalImpactsE_ok (mu sigma xm alpha : ℝ) (zs us : List ℝ)
    (halpha : alpha ≠ 0) (hus : ∀ u ∈ us, u < 1) :
    totalImpactsE mu sigma xm alpha zs us =
      Except.ok (total_impacts mu sigma xm alpha zs us) := by
  unfold totalImpactsE total_impacts
  refine mapM_ok _ _ _ (fun zu hzu => ?_)
  rw [paretoE_ok xm alpha zu.2 halpha (hus zu.2 (List.of_mem_zip hzu).2)]
  rfl

theorem Task1E_ok (a b c point1 : ℝ) (number_set : List ℤ)
    (prob_set : List ℝ) (num : ℕ) (point2 mu sigma xm alpha point3 point4 : ℝ)
    (zs us : List ℝ) (hac : a ≤ c) (hcb : c ≤ b) (hab : a < b)
    (hnum : 1 ≤ num) (halpha : 0 < alpha) (hus : ∀ u ∈ us, u < 1) :
    Task1E a b c point1 number_set prob_set num point2 mu sigma xm alpha
      point3 point4 zs us =
    Except.ok (triangular_cdf point1 a b c,
      MEAN_t a b c,
      MEDIAN_t a b c,
      occMean number_set prob_set,
      occVariance number_set prob_set,
      mcProb2 point2 (total_impacts mu sigma xm alpha zs us) num,
      mcProb3 point3 point4 (total_impacts mu sigma xm alpha zs us) num,
      occMean number_set prob_set * (MEDIAN_t a b c *
        mcProb2 point2 (total_impacts mu sigma xm alpha zs us) num)) := by
  unfold Task1E
  rw [triangular_cdfE_ok point1 a b c hac hcb hab,
    totalImpactsE_ok mu sigma xm alpha zs us (ne_of_gt halpha) hus]
  have hba : ¬(b - a = 0) := sub_ne_zero.mpr hab.ne'
  have hn0 : ¬(num = 0) := Nat.pos_iff_ne_zero.mp hnum
  simp only [hba, hn0, if_false]
  rfl

theorem triangular_cdf_nonneg {α : Type} [LinearOrderedField α]
    (x a b c : α) (hac : a ≤ c) (hcb : c ≤ b) (hab : a < b) :
    0 ≤ triangular_cdf x a b c := by
  unfold triangular_cdf
  split_ifs with h1 h2 h3
  · exact le_refl 0
  · have hxa : a < x := lt_of_not_le h1
    exact div_nonneg (sq_nonneg _)
      (le_of_lt (mul_pos (by linarith) (by linarith)))
  · have hcx : c < x := lt_of_not_le h2
    have hden : (0:α) < (b - a) * (b - c) :=
      mul_pos (by linarith) (by linarith)
    rw [sub_nonneg, div_le_one hden]
    have hmul : (b - x) * (b - x) ≤ (b - a) * (b - c) :=
      mul_le_mul (by linarith) (by linarith) (by linarith) (by linarith)
    nlinarith [hmul]
  · norm_num

theorem triangular_cdf_le_one {α : Type} [LinearOrderedField α]
    (x a b c : α) (hac : a ≤ c) (hcb : c ≤ b) (hab : a < b) :
    triangular_cdf x a b c ≤ 1 := by
  unfold triangular_cdf
  split_ifs with h1 h2 h3
  · norm_num
  · have hxa : a < x := lt_of_not_le h1
    have hden : (0:α) < (b - a) * (c - a) :=
      mul_pos (by linarith) (by linarith)
    rw [div_le_one hden]
    have hmul : (x - a) * (x - a) ≤ (b - a) * (c - a) :=
      mul_le_mul (by linarith) (by linarith) (by linarith) (by linarith)
    nlinarith [hmul]
  · have hcx : c < x := lt_of_not_le h2
    have hnn : (0:α) ≤ (b - x) ^ 2 / ((b - a) * (b - c)) :=
      div_nonneg (sq_nonneg _)
        (le_of_lt (mul_pos (by linarith) (by linarith)))
    linarith
  · exact le_refl 1

theorem triangular_cdf_le_Fc {α : Type} [LinearOrderedField α]
    (x a b c : α) (hac : a < c) (hcb : c < b) (hx : x ≤ c) :
    triangular_cdf x a b c ≤ (c - a) / (b - a) := by
  have hca : 0 < c - a := by linarith
  have hba : 0 < b - a := by linarith
  by_cases h1 : x ≤ a
  · unfold triangular_cdf
    rw [if_pos h1]
    positivity
  · have hxa : a < x := lt_of_not_le h1
    unfold triangular_cdf
    rw [if_neg h1, if_pos hx, div_le_div_iff (mul_pos hba hca) hba]
    have hpow : (x - a) ^ 2 ≤ (c - a) ^ 2 :=
      pow_le_pow_left (by linarith) (by linarith) 2
    calc (x - a) ^ 2 * (b - a) ≤ (c - a) ^ 2 * (b - a) :=
          mul_le_mul_of_nonneg_right hpow (le_of_lt hba)
      _ = (c - a) * ((b - a) * (c - a)) := by ring

theorem Fc_le_triangular_cdf {α : Type} [LinearOrderedField α]
    (x a b c : α) (hac : a < c) (hcb : c < b) (hx : c < x) :
    (c - a) / (b - a) ≤ triangular_cdf x a b c := by
  have hca : 0 < c - a := by linarith
  have hba : 0 < b - a := by linarith
  have hbc : 0 < b - c := by linarith
  have hsplit : (c - a) / (b - a) = 1 - (b - c) / (b - a) := by
    field_simp
  unfold triangular_cdf
  rw [if_neg (by push_neg; linarith), if_neg (by push_neg; exact hx)]
  by_cases h3 : x ≤ b
  · rw [if_pos h3]
    have key : (b - x) ^ 2 / ((b - a) * (b - c)) ≤ (b - c) / (b - a) := by
      rw [div_le_div_iff (mul_pos hba hbc) hba]
      have hpow : (b - x) ^ 2 ≤ (b - c) ^ 2 :=
        pow_le_pow_left (by linarith) (by linarith) 2
      calc (b - x) ^ 2 * (b - a) ≤ (b - c) ^ 2 * (b - a) :=
            mul_le_mul_of_nonneg_right hpow (le_of_lt hba)
        _ = (b - c) * ((b - a) * (b - c)) := by ring
    linarith
  · rw [if_neg h3, div_le_one hba]
    linarith

theorem triangular_cdf_mono {α : Type} [LinearOrderedField α]
    (x y a b c : α) (hac : a < c) (hcb : c < b) (hxy : x ≤ y) :
    triangular_cdf x a b c ≤ triangular_cdf y a b c := by
  have hca : 0 < c - a := by linarith
  have hba : 0 < b - a := by linarith
  have hbc : 0 < b - c := by linarith
  by_cases hxc : x ≤ c
  · by_cases hyc : y ≤ c
    · by_cases hx1 : x ≤ a
      · have hx0 : triangular_cdf x a b c = 0 := by
          unfold triangular_cdf
          rw [if_pos hx1]
        rw [hx0]
        exact triangular_cdf_nonneg y a b c (le_of_lt hac) (le_of_lt hcb)
          (lt_trans hac hcb)
      · have hxa : a < x := lt_of_not_le hx1
        have hya : a < y := lt_of_lt_of_le hxa hxy
        unfold triangular_cdf
        rw [if_neg hx1, if_pos hxc, if_neg (by push_neg; exact hya),
          if_pos hyc]
        rw [div_le_div_iff (mul_pos hba hca) (mul_pos hba hca)]
        exact mul_le_mul_of_nonneg_right
          (pow_le_pow_left (by linarith) (by linarith) 2)
          (le_of_lt (mul_pos hba hca))
    · exact le_trans (triangular_cdf_le_Fc x a b c hac hcb hxc)
        (Fc_le_triangular_cdf y a b c hac hcb (lt_of_not_le hyc))
  · have hcx : c < x := lt_of_not_le hxc
    by_cases hyb : y ≤ b
    · have hxb : x ≤ b := le_trans hxy hyb
      unfold triangular_cdf
      rw [if_neg (by push_neg; linarith), if_neg (by push_neg; exact hcx),
        if_pos hxb, if_neg (by push_neg; linarith),
        if_neg (by push_neg; linarith), if_pos hyb]
      have hstep : (b - y) ^ 2 / ((b - a) * (b - c)) ≤
          (b - x) ^ 2 / ((b - a) * (b - c)) := by
        rw [div_le_div_iff (mul_pos hba hbc) (mul_pos hba hbc)]
        exact mul_le_mul_of_nonneg_right
          (pow_le_pow_left (by linarith) (by linarith) 2)
          (le_of_lt (mul_pos hba hbc))
      linarith
    · have hy1 : triangular_cdf y a b c = 1 := by
        unfold triangular_cdf
        rw [if_neg (by push_neg; linarith), if_neg (by push_neg; linarith),
          if_neg hyb]
      rw [hy1]
      exact triangular_cdf_le_one x a b c (le_of_lt hac) (le_of_lt hcb)
        (lt_trans hac hcb)

theorem occMass_nonneg {α : Type} [LinearOrderedField α] :
    ∀ (ns : List ℤ) (ps : List α), (∀ p ∈ ps, 0 ≤ p) →
      0 ≤ (List.zipWith (fun (_ : ℤ) (p : α) => p) ns ps).sum := by
  intro ns
  induction ns with
  | nil => intro ps _; simp
  | cons n ns ih =>
    intro ps hp
    cases ps with
    | nil => simp
    | cons p ps =>
      rw [List.zipWith_cons_cons, List.sum_cons]
      have h1 := ih ps (fun q hq => hp q (List.mem_cons_of_mem p hq))
      have h2 := hp p (List.mem_cons_self p ps)
      linarith

theorem occMass_le_sum {α : Type} [LinearOrderedField α] :
    ∀ (ns : List ℤ) (ps : List α), (∀ p ∈ ps, 0 ≤ p) →
      (List.zipWith (fun (_ : ℤ) (p : α) => p) ns ps).sum ≤ ps.sum := by
  intro ns
  induction ns with
  | nil =>
    intro ps hp
    simpa using List.sum_nonneg hp
  | cons n ns ih =>
    intro ps hp
    cases ps with
    | nil => simp
    | cons p ps =>
      rw [List.zipWith_cons_cons, List.sum_cons, List.sum_cons]
      have h1 := ih ps (fun q hq => hp q (List.mem_cons_of_mem p hq))
      linarith

theorem occE2_nonneg {α : Type} [LinearOrderedField α] :
    ∀ (ns : List ℤ) (ps : List α), (∀ p ∈ ps, 0 ≤ p) →
      0 ≤ occE2 ns ps := by
  intro ns
  induction ns with
  | nil => intro ps _; simp [occE2]
  | cons n ns ih =>
    intro ps hp
    cases ps with
    | nil => simp [occE2]
    | cons p ps =>
      have h1 := ih ps (fun q hq => hp q (List.mem_cons_of_mem p hq))
      have h2 : (0:α) ≤ (n : α) ^ 2 * p :=
        mul_nonneg (sq_nonneg _) (hp p (List.mem_cons_self p ps))
      simp only [occE2, List.zipWith_cons_cons, List.sum_cons] at h1 ⊢
      linarith

theorem occ_cauchy_schwarz {α : Type} [LinearOrderedField α] :
    ∀ (ns : List ℤ) (ps : List α), (∀ p ∈ ps, 0 ≤ p) →
      (occMean ns ps) ^ 2 ≤
        occE2 ns ps * (List.zipWith (fun (_ : ℤ) (p : α) => p) ns ps).sum := by
  intro ns
  induction ns with
  | nil => intro ps _; simp [occMean, occE2]
  | cons n ns ih =>
    intro ps hp
    cases ps with
    | nil => simp [occMean, occE2]
    | cons p ps =>
      have hp0 : (0:α) ≤ p := hp p (List.mem_cons_self p ps)
      have hps : ∀ q ∈ ps, (0:α) ≤ q :=
        fun q hq => hp q (List.mem_cons_of_mem p hq)
      have hIH := ih ps hps
      have hS := occMass_nonneg ns ps hps
      have hE := occE2_nonneg ns ps hps
      simp only [occMean, occE2, List.zipWith_cons_cons, List.sum_cons]
      set M := (List.zipWith (fun (n : ℤ) (p : α) => (n : α) * p) ns ps).sum with hM
      set E := (List.zipWith (fun (n : ℤ) (p : α) => (n : α) ^ 2 * p) ns ps).sum with hEdef
      set S := (List.zipWith (fun (_ : ℤ) (p : α) => p) ns ps).sum with hSdef
      have hIH' : M ^ 2 ≤ E * S := hIH
      have hE' : (0:α) ≤ E := hE
      by_cases hS0 : S = 0
      · have hM2 : M ^ 2 ≤ 0 := by rw [hS0] at hIH'; linarith
        have hM0 : M = 0 := by
          have hMnn := sq_nonneg M
          have : M ^ 2 = 0 := le_antisymm hM2 hMnn
          exact pow_eq_zero_iff (n := 2) (by norm_num) |>.mp this
        rw [hM0, hS0]
        nlinarith [mul_nonneg hE' hp0]
      · have hSpos : 0 < S := lt_of_le_of_ne hS (Ne.symm hS0)
        nlinarith [sq_nonneg ((n:α) * S - M), mul_nonneg hp0 hS,
          mul_nonneg hp0 hE', hIH']

theorem occVariance_nonneg {α : Type} [LinearOrderedField α]
    (ns : List ℤ) (ps : List α) (hp : ∀ p ∈ ps, 0 ≤ p)
    (hsum : ps.sum ≤ 1) : 0 ≤ occVariance ns ps := by
  have hcs := occ_cauchy_schwarz ns ps hp
  have hE := occE2_nonneg ns ps hp
  have hm := occMass_le_sum ns ps hp
  have hmass : (List.zipWith (fun (_ : ℤ) (p : α) => p) ns ps).sum ≤ 1 :=
    le_trans hm hsum
  have hstep : occE2 ns ps * (List.zipWith (fun (_ : ℤ) (p : α) => p) ns ps).sum ≤
      occE2 ns ps * 1 := mul_le_mul_of_nonneg_left hmass hE
  unfold occVariance
  nlinarith [hcs, hstep]


/-- Claim C6 (counterexample): on the table
`[[25,35,20,15],[30,40,25,10],[15,25,30,20]]` the analyzer returns
`prob1 = 35/58`, which is not the claimed `0.78 = 39/50`: the X=3 and X=4
column marginals are 100 and 75 and the cells sum to 290, not 250. -/
theorem C6_counterexample :
    (Task2 250 [[25, 35, 20, 15], [30, 40, 25, 10], [15, 25, 30, 20]]
      [4/5, 3/4, 7/10, 13/20, 3/5, 11/20]).1 = 35/58 ∧
    (35 : ℚ)/58 ≠ 39/50 := by
  constructor
  · simp only [Task2]
    norm_num
  · norm_num

/-- Claim C6 (amended): for the table
`[[25,35,20,15],[30,40,25,10],[15,25,30,20]]` the analyzer returns
`prob1 = (100 + 75) / 290`, the sum of the X=3 and X=4 column marginals
divided by the recomputed cell total 290 (the declared total 250 is
ignored, and the claimed value 0.78 is wrong). -/
theorem C6_prob1_value :
    (Task2 250 [[25, 35, 20, 15], [30, 40, 25, 10], [15, 25, 30, 20]]
      [4/5, 3/4, 7/10, 13/20, 3/5, 11/20]).1 = (100 + 75) / 290 := by
  simp only [Task2]
  norm_num

/-- Claim C7 (counterexample): for counts `[0,1,2,3,4,5]` and probabilities
`[0.3,0.4,0.2,0.06,0.03,0.01]` the occurrence mean is exactly `23/20 = 1.15`
and the variance exactly `459/400 = 1.1475`; both are more than 0.01 away
from the claimed 1.21 and 1.2259. -/
theorem C7_counterexample :
    occMean (α := ℚ) [0, 1, 2, 3, 4, 5]
      [3/10, 2/5, 1/5, 3/50, 3/100, 1/100] = 23/20 ∧
    ¬ |(23 : ℚ)/20 - 121/100| < 1/100 ∧
    occVariance (α := ℚ) [0, 1, 2, 3, 4, 5]
      [3/10, 2/5, 1/5, 3/50, 3/100, 1/100] = 459/400 ∧
    ¬ |(459 : ℚ)/400 - 12259/10000| < 1/100 := by
  refine ⟨?_, ?_, ?_, ?_⟩
  · simp only [occMean, List.zipWith, List.sum_cons, List.sum_nil]
    norm_num
  · rw [abs_of_neg (by norm_num)]
    norm_num
  · simp only [occVariance, occMean, occE2, List.zipWith, List.sum_cons,
      List.sum_nil]
    norm_num
  · rw [abs_of_neg (by norm_num)]
    norm_num

/-- Claim C7 (amended): for counts `[0,1,2,3,4,5]` and probabilities
`[0.3,0.4,0.2,0.06,0.03,0.01]` the occurrence-model mean
`Σ counts[i]·probs[i]` equals exactly `1.15` and the variance
`Σ counts[i]²·probs[i] − mean²` equals exactly `1.1475`. -/
theorem C7_occurrence_stats :
    occMean (α := ℚ) [0, 1, 2, 3, 4, 5]
      [3/10, 2/5, 1/5, 3/50, 3/100, 1/100] = 115/100 ∧
    occVariance (α := ℚ) [0, 1, 2, 3, 4, 5]
      [3/10, 2/5, 1/5, 3/50, 3/100, 1/100] = 11475/10000 := by
  constructor
  · simp only [occMean, List.zipWith, List.sum_cons, List.sum_nil]
    norm_num
  · simp only [occVariance, occMean, occE2, List.zipWith, List.sum_cons,
      List.sum_nil]
    norm_num

/-- Claim C8 (counterexample): the table with counts `[1]` and probabilities
`[1.0005]` satisfies the claimed validity conditions (non-negative count,
probability ≥ 0, sum within 1e-3 of 1) yet its variance
`1.0005 − 1.0005²` is negative. -/
theorem C8_counterexample :
    |((2001 : ℚ)/2000) - 1| < 1/1000 ∧ (0 : ℚ) ≤ 2001/2000 ∧
    occVariance (α := ℚ) [1] [2001/2000] < 0 := by
  refine ⟨?_, by norm_num, ?_⟩
  · rw [abs_of_nonneg (by norm_num)]
    norm_num
  · simp only [occVariance, occMean, occE2, List.zipWith, List.sum_cons,
      List.sum_nil]
    norm_num

/-- Claim C8 (amended): for every occurrence table whose probabilities are
all ≥ 0 and sum to at most 1 (in particular, to exactly 1), the computed
variance `Σ counts[i]²·probs[i] − (Σ counts[i]·probs[i])²` is ≥ 0.
The declared 1e-3 tolerance must not allow the sum to exceed 1: sums
slightly above 1 can make the variance negative. -/
theorem C8_variance_nonneg (number_set : List ℤ) (prob_set : List ℚ)
    (hp : ∀ p ∈ prob_set, 0 ≤ p) (hsum : prob_set.sum ≤ 1) :
    0 ≤ occVariance number_set prob_set :=
  occVariance_nonneg number_set prob_set hp hsum

/-- Witness for C8: the fair-coin table `counts = [0,1]`,
`probs = [1/2,1/2]` has non-negative variance. -/
theorem C8_variance_nonneg_witness :
    (0 : ℚ) ≤ occVariance [0, 1] [1/2, 1/2] :=
  C8_variance_nonneg [0, 1] [1/2, 1/2]
    (by
      intro p hp
      simp only [List.mem_cons, List.not_mem_nil, or_false] at hp
      rcases hp with h | h <;> rw [h] <;> norm_num)
    (by
      simp only [List.sum_cons, List.sum_nil]
      norm_num)

/-- Claim C10: the joint-probability analyzer ignores its first
(total-case-count) argument: both the `prob_model.py` and the `task2.py`
versions of `Task2` return identical results for any two values of `num`,
because every division uses the internally recomputed cell total. -/
theorem C10_num_argument_ignored (num1 num2 : ℤ) (table : List (List ℤ))
    (probs : List ℚ) :
    Task2 num1 table probs = Task2 num2 table probs ∧
    Task2_script num1 table probs = Task2_script num2 table probs :=
  ⟨rfl, rfl⟩

theorem bayes_expr_bounds (V W Y T : ℚ) (hT : 0 < T) (hY : 0 < Y)
    (hV : 0 < V) (hW : 0 ≤ W) (hWV : W ≤ V) :
    0 ≤ (V / T - W / T) / (Y / T) * (Y / T) / (V / T) ∧
    (V / T - W / T) / (Y / T) * (Y / T) / (V / T) ≤ 1 := by
  have hYT : Y / T ≠ 0 := ne_of_gt (div_pos hY hT)
  rw [div_mul_cancel₀ _ hYT]
  constructor
  · apply div_nonneg _ (le_of_lt (div_pos hV hT))
    rw [sub_nonneg]
    exact (div_le_div_right hT).mpr hWV
  · rw [div_le_one (div_pos hV hT)]
    have hWT : 0 ≤ W / T := div_nonneg hW (le_of_lt hT)
    linarith

/-- Claim C5 (counterexample): the table `[[0,1,1,1],[0,1,1,1],[0,1,1,1]]`
has a zero X=2 column marginal, yet the analyzer raises nothing and
returns `(2/3, 1/3, 19/42)` — no `DegenerateInputError` is surfaced for a
zero marginal. -/
theorem C5_counterexample :
    Task2E 9 [[0, 1, 1, 1], [0, 1, 1, 1], [0, 1, 1, 1]]
        [4/5, 3/4, 7/10, 13/20, 3/5, 11/20] =
      Except.ok (2/3, 1/3, 19/42) ∧
    Task2E 9 [[0, 1, 1, 1], [0, 1, 1, 1], [0, 1, 1, 1]]
        [4/5, 3/4, 7/10, 13/20, 3/5, 11/20] ≠
      Except.error PyError.degenerateInputError := by
  have h : Task2E 9 [[0, 1, 1, 1], [0, 1, 1, 1], [0, 1, 1, 1]]
      [4/5, 3/4, 7/10, 13/20, 3/5, 11/20] =
      Except.ok (2/3, 1/3, 19/42) := by
    simp only [Task2E]
    norm_num
  refine ⟨h, ?_⟩
  rw [h]
  simp

/-- Claim C5 (amended): the analyzer raises a raw division-by-zero error
(Python `ZeroDivisionError`), never a `DegenerateInputError`, and its
failures are exactly these three: cell total 0 (at the `prob1` division),
total nonzero but Y=8 row marginal 0 (at the `PT_given_Y8` division), and
total and Y=8 marginal nonzero but X-side mass
`P(T|X=2)·X2 + ... + P(T|X=5)·X5` zero (at the `prob3` division); in
every other case — in particular for zero column marginals alone — it
returns a normal result. -/
theorem C5_zero_division_sites (num a b c d e f g h i j k l : ℤ)
    (P2 P3 P4 P5 P6 P7 : ℚ) :
    (a + b + c + d + e + f + g + h + i + j + k + l = 0 →
      Task2E num [[a, b, c, d], [e, f, g, h], [i, j, k, l]]
          [P2, P3, P4, P5, P6, P7] =
        Except.error (PyError.zeroDivision "prob1")) ∧
    (a + b + c + d + e + f + g + h + i + j + k + l ≠ 0 →
      i + j + k + l = 0 →
      Task2E num [[a, b, c, d], [e, f, g, h], [i, j, k, l]]
          [P2, P3, P4, P5, P6, P7] =
        Except.error (PyError.zeroDivision "PT given Y8")) ∧
    (a + b + c + d + e + f + g + h + i + j + k + l ≠ 0 →
      i + j + k + l ≠ 0 →
      P2 * ((a + e + i : ℤ) : ℚ) + P3 * ((b + f + j : ℤ) : ℚ) +
        P4 * ((c + g + k : ℤ) : ℚ) + P5 * ((d + h + l : ℤ) : ℚ) = 0 →
      Task2E num [[a, b, c, d], [e, f, g, h], [i, j, k, l]]
          [P2, P3, P4, P5, P6, P7] =
        Except.error (PyError.zeroDivision "prob3")) ∧
    (a + b + c + d + e + f + g + h + i + j + k + l ≠ 0 →
      i + j + k + l ≠ 0 →
      P2 * ((a + e + i : ℤ) : ℚ) + P3 * ((b + f + j : ℤ) : ℚ) +
        P4 * ((c + g + k : ℤ) : ℚ) + P5 * ((d + h + l : ℤ) : ℚ) ≠ 0 →
      (Task2E num [[a, b, c, d], [e, f, g, h], [i, j, k, l]]
          [P2, P3, P4, P5, P6, P7]).isOk = true) := by
  refine ⟨?_, ?_, ?_, ?_⟩
  · intro htot
    simp only [Task2E]
    rw [if_pos htot]
  · intro htot hY8
    simp only [Task2E]
    rw [if_neg htot, if_pos (by rw [hY8]; norm_num)]
  · intro htot hY8 hPT
    simp only [Task2E]
    rw [if_neg htot,
      if_neg (div_ne_zero (by exact_mod_cast hY8) (by exact_mod_cast htot)),
      if_pos (by rw [hPT, zero_div])]
  · intro htot hY8 hPT
    simp only [Task2E]
    rw [if_neg htot,
      if_neg (div_ne_zero (by exact_mod_cast hY8) (by exact_mod_cast htot)),
      if_neg (div_ne_zero hPT (by exact_mod_cast htot))]
    rfl

/-- Witness for C5 (amended): the all-zero table fails at the `prob1`
division; a table whose only occupant is in the Y=6 row fails at the
`PT_given_Y8` division; a table with empty X=2 column and the test
probabilities `[1,0,0,0,0,0]` fails at the `prob3` division; and the
all-ones table with all test probabilities 1 returns a normal result. -/
theorem C5_zero_division_sites_witness :
    Task2E 0 [[0, 0, 0, 0], [0, 0, 0, 0], [0, 0, 0, 0]] [1, 1, 1, 1, 1, 1] =
      Except.error (PyError.zeroDivision "prob1") ∧
    Task2E 1 [[1, 0, 0, 0], [0, 0, 0, 0], [0, 0, 0, 0]] [1, 1, 1, 1, 1, 1] =
      Except.error (PyError.zeroDivision "PT given Y8") ∧
    Task2E 9 [[0, 1, 1, 1], [0, 1, 1, 1], [0, 1, 1, 1]] [1, 0, 0, 0, 0, 0] =
      Except.error (PyError.zeroDivision "prob3") ∧
    (Task2E 12 [[1, 1, 1, 1], [1, 1, 1, 1], [1, 1, 1, 1]]
      [1, 1, 1, 1, 1, 1]).isOk = true :=
  ⟨(C5_zero_division_sites 0 0 0 0 0 0 0 0 0 0 0 0 0 1 1 1 1 1 1).1
      (by norm_num),
   (C5_zero_division_sites 1 1 0 0 0 0 0 0 0 0 0 0 0 1 1 1 1 1 1).2.1
      (by norm_num) (by norm_num),
   (C5_zero_division_sites 9 0 1 1 1 0 1 1 1 0 1 1 1 1 0 0 0 0 0).2.2.1
      (by norm_num) (by norm_num) (by norm_num),
   (C5_zero_division_sites 12 1 1 1 1 1 1 1 1 1 1 1 1 1 1 1 1 1 1).2.2.2
      (by norm_num) (by norm_num) (by norm_num)⟩

/-- Claim C4 (counterexample): the all-ones 3×4 table (total 12, every
marginal positive) with conditional probabilities
`[0.1, 0.1, 0.1, 0.1, 1, 1]`, all in [0,1], makes the Bayes posterior
`prob3` equal to −17/3, which is not in [0,1]. -/
theorem C4_counterexample :
    (Task2 12 [[1, 1, 1, 1], [1, 1, 1, 1], [1, 1, 1, 1]]
      [1/10, 1/10, 1/10, 1/10, 1, 1]).2.2 < 0 := by
  simp only [Task2]
  norm_num

/-- Claim C4 (amended): `prob1` from the triangular CDF and `prob2`,
`prob3` from the Monte-Carlo counts always lie in [0,1] for valid
aggregator inputs, and the joint analyzer's `prob1` and `prob2` lie in
[0,1] for every table of non-negative counts with positive total; but its
Bayes posterior `prob3` lies in [0,1] only under the additional
consistency condition that the X-side total-probability mass is positive
and at least `P(T|Y=6)·Y6 + P(T|Y=7)·Y7` (the counterexample violates it),
together with a positive Y=8 marginal. -/
theorem C4_probs_in_unit_interval :
    (∀ (x a b c : ℝ), a ≤ c → c ≤ b → a < b →
      0 ≤ triangular_cdf x a b c ∧ triangular_cdf x a b c ≤ 1) ∧
    (∀ (point2 point3 point4 : ℝ) (impacts : List ℝ) (num : ℕ),
      1 ≤ num → impacts.length ≤ num →
      (0 ≤ mcProb2 point2 impacts num ∧ mcProb2 point2 impacts num ≤ 1) ∧
      (0 ≤ mcProb3 point3 point4 impacts num ∧
        mcProb3 point3 point4 impacts num ≤ 1)) ∧
    (∀ (num a b c d e f g h i j k l : ℤ) (P2 P3 P4 P5 P6 P7 : ℚ),
      0 ≤ a → 0 ≤ b → 0 ≤ c → 0 ≤ d → 0 ≤ e → 0 ≤ f → 0 ≤ g → 0 ≤ h →
      0 ≤ i → 0 ≤ j → 0 ≤ k → 0 ≤ l →
      0 < a + b + c + d + e + f + g + h + i + j + k + l →
      (0 ≤ (Task2 num [[a, b, c, d], [e, f, g, h], [i, j, k, l]]
          [P2, P3, P4, P5, P6, P7]).1 ∧
        (Task2 num [[a, b, c, d], [e, f, g, h], [i, j, k, l]]
          [P2, P3, P4, P5, P6, P7]).1 ≤ 1) ∧
      (0 ≤ (Task2 num [[a, b, c, d], [e, f, g, h], [i, j, k, l]]
          [P2, P3, P4, P5, P6, P7]).2.1 ∧
        (Task2 num [[a, b, c, d], [e, f, g, h], [i, j, k, l]]
          [P2, P3, P4, P5, P6, P7]).2.1 ≤ 1) ∧
      (0 < i + j + k + l →
        0 ≤ P6 * ((a + b + c + d : ℤ) : ℚ) + P7 * ((e + f + g + h : ℤ) : ℚ) →
        0 < P2 * ((a + e + i : ℤ) : ℚ) + P3 * ((b + f + j : ℤ) : ℚ) +
            P4 * ((c + g + k : ℤ) : ℚ) + P5 * ((d + h + l : ℤ) : ℚ) →
        P6 * ((a + b + c + d : ℤ) : ℚ) + P7 * ((e + f + g + h : ℤ) : ℚ) ≤
          P2 * ((a + e + i : ℤ) : ℚ) + P3 * ((b + f + j : ℤ) : ℚ) +
            P4 * ((c + g + k : ℤ) : ℚ) + P5 * ((d + h + l : ℤ) : ℚ) →
        0 ≤ (Task2 num [[a, b, c, d], [e, f, g, h], [i, j, k, l]]
            [P2, P3, P4, P5, P6, P7]).2.2 ∧
          (Task2 num [[a, b, c, d], [e, f, g, h], [i, j, k, l]]
            [P2, P3, P4, P5, P6, P7]).2.2 ≤ 1)) := by
  refine ⟨?_, ?_, ?_⟩
  · intro x a b c h1 h2 h3
    exact ⟨triangular_cdf_nonneg x a b c h1 h2 h3,
      triangular_cdf_le_one x a b c h1 h2 h3⟩
  · intro point2 point3 point4 impacts num hnum hlen
    have hnum0 : (0:ℝ) < (num : ℝ) := by
      exact_mod_cast Nat.lt_of_lt_of_le Nat.zero_lt_one hnum
    constructor
    · constructor
      · exact div_nonneg (Nat.cast_nonneg _) (Nat.cast_nonneg _)
      · rw [mcProb2, div_le_one hnum0]
        exact_mod_cast le_trans (List.countP_le_length _) hlen
    · constructor
      · exact div_nonneg (Nat.cast_nonneg _) (Nat.cast_nonneg _)
      · rw [mcProb3, div_le_one hnum0]
        exact_mod_cast le_trans (List.countP_le_length _) hlen
  · intro num a b c d e f g h i j k l P2 P3 P4 P5 P6 P7
    intro ha hb hc hd he hf hg hh hi hj hk hl htot
    have hTQ : (0:ℚ) <
        ((a + b + c + d + e + f + g + h + i + j + k + l : ℤ) : ℚ) := by
      exact_mod_cast htot
    refine ⟨⟨?_, ?_⟩, ⟨?_, ?_⟩, ?_⟩
    · simp only [Task2]
      apply div_nonneg _ (le_of_lt hTQ)
      have : (0:ℤ) ≤ b + f + j + (c + g + k) := by linarith
      exact_mod_cast this
    · simp only [Task2]
      rw [div_le_one hTQ]
      have : b + f + j + (c + g + k) ≤
          a + b + c + d + e + f + g + h + i + j + k + l := by linarith
      exact_mod_cast this
    · simp only [Task2]
      apply div_nonneg _ (le_of_lt hTQ)
      have : (0:ℤ) ≤ a + e + i + b + f + c := by linarith
      exact_mod_cast this
    · simp only [Task2]
      rw [div_le_one hTQ]
      have : a + e + i + b + f + c ≤
          a + b + c + d + e + f + g + h + i + j + k + l := by linarith
      exact_mod_cast this
    · intro hY8 hW hV hWV
      simp only [Task2]
      exact bayes_expr_bounds
        (P2 * ((a + e + i : ℤ) : ℚ) + P3 * ((b + f + j : ℤ) : ℚ) +
          P4 * ((c + g + k : ℤ) : ℚ) + P5 * ((d + h + l : ℤ) : ℚ))
        (P6 * ((a + b + c + d : ℤ) : ℚ) + P7 * ((e + f + g + h : ℤ) : ℚ))
        ((i + j + k + l : ℤ) : ℚ)
        ((a + b + c + d + e + f + g + h + i + j + k + l : ℤ) : ℚ)
        hTQ (by exact_mod_cast hY8) hV hW hWV

/-- Witness for C4 (amended): concrete instances of all three parts — the
triangular CDF at the mode of Triangular(0, 1, 2), empty Monte-Carlo
samples with one iteration, and the all-ones table with conditional
probabilities `[1,1,1,1,0,0]`. -/
theorem C4_probs_in_unit_interval_witness :
    (0 ≤ triangular_cdf (1:ℝ) 0 2 1 ∧ triangular_cdf (1:ℝ) 0 2 1 ≤ 1) ∧
    ((0 ≤ mcProb2 5 [] 1 ∧ mcProb2 5 [] 1 ≤ 1) ∧
      (0 ≤ mcProb3 0 10 [] 1 ∧ mcProb3 0 10 [] 1 ≤ 1)) ∧
    (0 ≤ (Task2 12 [[1, 1, 1, 1], [1, 1, 1, 1], [1, 1, 1, 1]]
        [1, 1, 1, 1, 0, 0]).2.2 ∧
      (Task2 12 [[1, 1, 1, 1], [1, 1, 1, 1], [1, 1, 1, 1]]
        [1, 1, 1, 1, 0, 0]).2.2 ≤ 1) := by
  refine ⟨C4_probs_in_unit_interval.1 1 0 2 1 (by norm_num) (by norm_num)
    (by norm_num),
    C4_probs_in_unit_interval.2.1 5 0 10 [] 1 (le_refl 1) (by simp), ?_⟩
  exact (C4_probs_in_unit_interval.2.2 12 1 1 1 1 1 1 1 1 1 1 1 1 1 1 1 1 0 0
    (by norm_num) (by norm_num) (by norm_num) (by norm_num) (by norm_num)
    (by norm_num) (by norm_num) (by norm_num) (by norm_num) (by norm_num)
    (by norm_num) (by norm_num) (by norm_num)).2.2 (by norm_num)
    (by norm_num) (by norm_num) (by norm_num)

/-- Claim C3: for every valid triangular parameter set with the mode
strictly between min and max (`a < c < b` in source naming, with `a` the
min, `b` the max, `c` the mode), the CDF is 0 at the min, 1 at the max,
`(mode−min)/(max−min)` at the mode, and non-decreasing in its argument. -/
theorem C3_triangular_cdf_properties (a b c x y : ℚ) (hac : a < c)
    (hcb : c < b) (hxy : x ≤ y) :
    triangular_cdf a a b c = 0 ∧ triangular_cdf b a b c = 1 ∧
    triangular_cdf c a b c = (c - a) / (b - a) ∧
    triangular_cdf x a b c ≤ triangular_cdf y a b c := by
  refine ⟨?_, ?_, ?_, triangular_cdf_mono x y a b c hac hcb hxy⟩
  · unfold triangular_cdf
    rw [if_pos (le_refl a)]
  · unfold triangular_cdf
    rw [if_neg (by push_neg; linarith), if_neg (by push_neg; linarith),
      if_pos (le_refl b)]
    norm_num
  · unfold triangular_cdf
    rw [if_neg (by push_neg; linarith), if_pos (le_refl c)]
    have hca : c - a ≠ 0 := ne_of_gt (by linarith)
    have hba : b - a ≠ 0 := ne_of_gt (by linarith)
    field_simp
    ring

/-- Witness for C3: Triangular(0, 1, 2) evaluated at 0, 1, 2 and the
monotonicity instance 0 ≤ 1. -/
theorem C3_triangular_cdf_properties_witness :
    triangular_cdf (0:ℚ) 0 2 1 = 0 ∧ triangular_cdf (2:ℚ) 0 2 1 = 1 ∧
    triangular_cdf (1:ℚ) 0 2 1 = (1 - 0) / (2 - 0) ∧
    triangular_cdf (0:ℚ) 0 2 1 ≤ triangular_cdf (1:ℚ) 0 2 1 :=
  C3_triangular_cdf_properties 0 2 1 0 1 (by norm_num) (by norm_num)
    (by norm_num)

/-- Claim C9: for every valid triangular parameter set
(min ≤ mode ≤ max, min < max), the mean `(min+mode+max)/3` and the
branch-computed median both lie within [min, max]. -/
theorem C9_mean_median_in_range (a b c : ℝ) (hac : a ≤ c) (hcb : c ≤ b)
    (hab : a < b) :
    (a ≤ MEAN_t a b c ∧ MEAN_t a b c ≤ b) ∧
    (a ≤ MEDIAN_t a b c ∧ MEDIAN_t a b c ≤ b) := by
  constructor
  · unfold MEAN_t
    constructor
    · linarith
    · linarith
  · unfold MEDIAN_t
    split_ifs with h1 h2
    · exact ⟨hac, hcb⟩
    · have harg : 0.5 * (b - a) * (c - a) ≤ (b - a) ^ 2 := by nlinarith
      have hs : Real.sqrt (0.5 * (b - a) * (c - a)) ≤ b - a := by
        calc Real.sqrt (0.5 * (b - a) * (c - a))
            ≤ Real.sqrt ((b - a) ^ 2) := Real.sqrt_le_sqrt harg
          _ = b - a := Real.sqrt_sq (by linarith)
      have hnn := Real.sqrt_nonneg (0.5 * (b - a) * (c - a))
      constructor
      · linarith
      · linarith
    · have harg : 0.5 * (b - a) * (b - c) ≤ (b - a) ^ 2 := by nlinarith
      have hs : Real.sqrt (0.5 * (b - a) * (b - c)) ≤ b - a := by
        calc Real.sqrt (0.5 * (b - a) * (b - c))
            ≤ Real.sqrt ((b - a) ^ 2) := Real.sqrt_le_sqrt harg
          _ = b - a := Real.sqrt_sq (by linarith)
      have hnn := Real.sqrt_nonneg (0.5 * (b - a) * (b - c))
      constructor
      · linarith
      · linarith

/-- Witness for C9: Triangular(0, 1, 2). -/
theorem C9_mean_median_in_range_witness :
    ((0:ℝ) ≤ MEAN_t 0 2 1 ∧ MEAN_t 0 2 1 ≤ 2) ∧
    ((0:ℝ) ≤ MEDIAN_t 0 2 1 ∧ MEDIAN_t 0 2 1 ≤ 2) :=
  C9_mean_median_in_range 0 2 1 (by norm_num) (by norm_num) (by norm_num)

/-- Claim C1: for every valid simulation request (min ≤ mode ≤ max,
min < max, iterations ≥ 1, sigma > 0, xm > 0, alpha > 0; `a` min, `b` max,
`c` mode) and every run of the Monte-Carlo loop (`num` standard-normal
draws `zs` and uniform draws `us`, the latter below 1), `Task1` returns
exactly the 8-tuple (prob1, mean_t, median_t, mean_d, var_d, prob2, prob3,
ale) in that fixed positional order, and the last field is
`mean_d * (median_t * prob2)` with `mean_d` the occurrence-distribution
mean, `median_t` the triangular median and `prob2` the Monte-Carlo
estimate of P(total_impact > point2). -/
theorem C1_ale_result_tuple (a b c point1 : ℝ) (number_set : List ℤ)
    (prob_set : List ℝ) (num : ℕ)
    (point2 mu sigma xm alpha point3 point4 : ℝ) (zs us : List ℝ)
    (hac : a ≤ c) (hcb : c ≤ b) (hab : a < b) (hnum : 1 ≤ num)
    (hsigma : 0 < sigma) (hxm : 0 < xm) (halpha : 0 < alpha)
    (hzs : zs.length = num) (hus : us.length = num)
    (huu : ∀ u ∈ us, u < 1) :
    Task1E a b c point1 number_set prob_set num point2 mu sigma xm alpha
      point3 point4 zs us =
    Except.ok (triangular_cdf point1 a b c,
      MEAN_t a b c,
      MEDIAN_t a b c,
      occMean number_set prob_set,
      occVariance number_set prob_set,
      mcProb2 point2 (total_impacts mu sigma xm alpha zs us) num,
      mcProb3 point3 point4 (total_impacts mu sigma xm alpha zs us) num,
      occMean number_set prob_set * (MEDIAN_t a b c *
        mcProb2 point2 (total_impacts mu sigma xm alpha zs us) num)) :=
  Task1E_ok a b c point1 number_set prob_set num point2 mu sigma xm alpha
    point3 point4 zs us hac hcb hab hnum halpha huu

/-- Witness for C1: Triangular(0, 1, 2), one iteration with draws z = 0
and u = 0, lognormal mu = 0, sigma = 1, Pareto xm = 1, alpha = 1. -/
theorem C1_ale_result_tuple_witness :
    Task1E 0 2 1 3 [1] [1] 1 5 0 1 1 1 0 10 [0] [0] =
    Except.ok (triangular_cdf 3 0 2 1,
      MEAN_t 0 2 1,
      MEDIAN_t 0 2 1,
      occMean [1] [1],
      occVariance [1] [1],
      mcProb2 5 (total_impacts 0 1 1 1 [0] [0]) 1,
      mcProb3 0 10 (total_impacts 0 1 1 1 [0] [0]) 1,
      occMean [1] [1] * (MEDIAN_t 0 2 1 *
        mcProb2 5 (total_impacts 0 1 1 1 [0] [0]) 1)) :=
  C1_ale_result_tuple 0 2 1 3 [1] [1] 1 5 0 1 1 1 0 10 [0] [0]
    (by norm_num) (by norm_num) (by norm_num) (le_refl 1) (by norm_num)
    (by norm_num) (by norm_num) rfl rfl
    (by
      intro u hu
      rw [List.mem_singleton] at hu
      rw [hu]
      norm_num)

/-- Claim C2 (counterexample): the malformed request with min = 2 > max = 1
(mode 1.5, otherwise well-formed parameters) raises nothing at all: the
simulation runs to completion and returns a full result tuple, so no
`ParameterError` is signalled for `min ≥ max`. -/
theorem C2_counterexample :
    Task1E 2 1 (3/2) 0 [1] [1] 1 5 0 1 1 1 0 10 [0] [0] =
      Except.ok (0, 3/2, 3/2, 1, 0, 0, 1, 0) := by
  have hcdf : triangular_cdfE 0 2 1 (3/2) = Except.ok 0 := by
    unfold triangular_cdfE
    rw [if_pos (by norm_num : (0:ℝ) ≤ 2)]
  have himp : totalImpactsE 0 1 1 1 [0] [0] = Except.ok [2] := by
    rw [totalImpactsE_ok 0 1 1 1 [0] [0] (by norm_num)
      (by
        intro u hu
        rw [List.mem_singleton] at hu
        rw [hu]
        norm_num)]
    unfold total_impacts
    norm_num [Real.exp_zero, Real.one_rpow]
  have hmed : MEDIAN_t 2 1 (3/2) = 3/2 := by
    unfold MEDIAN_t
    rw [if_pos (by norm_num)]
  have hmean : MEAN_t 2 1 (3/2) = 3/2 := by
    unfold MEAN_t
    norm_num
  have hoccm : occMean (α := ℝ) [1] [1] = 1 := by
    simp only [occMean, List.zipWith, List.sum_cons, List.sum_nil]
    norm_num
  have hoccv : occVariance (α := ℝ) [1] [1] = 0 := by
    simp only [occVariance, occMean, occE2, List.zipWith, List.sum_cons,
      List.sum_nil]
    norm_num
  have hp2 : mcProb2 5 [2] 1 = 0 := by
    unfold mcProb2
    norm_num [List.countP_cons, List.countP_nil,
      decide_eq_true_eq]
  have hp3 : mcProb3 0 10 [2] 1 = 1 := by
    unfold mcProb3
    norm_num [List.countP_cons, List.countP_nil,
      decide_eq_true_eq]
  unfold Task1E
  rw [hcdf, himp]
  simp only [ok_bind]
  rw [if_neg (by norm_num : ¬((1:ℝ) - 2 = 0)),
    if_neg (by norm_num : ¬(1 = 0))]
  simp only [hmed, hmean, hoccm, hoccv, hp2, hp3]
  norm_num [pure, Except.pure]

/-- Claim C2 (amended): the source performs no upfront validation and
never signals a `ParameterError`: with min > max the simulation can
return a normal result (see the counterexample), and with iterations = 0
it fails only at the `prob2 = count / float(num)` division with a raw
`ZeroDivisionError`, after the triangular and occurrence statistics have
already been computed. -/
theorem C2_no_validation (a b c point1 : ℝ) (number_set : List ℤ)
    (prob_set : List ℝ) (point2 mu sigma xm alpha point3 point4 : ℝ)
    (hac : a ≤ c) (hcb : c ≤ b) (hab : a < b) :
    Task1E a b c point1 number_set prob_set 0 point2 mu sigma xm alpha
      point3 point4 [] [] =
      Except.error (PyError.zeroDivision "prob2") := by
  unfold Task1E
  rw [triangular_cdfE_ok point1 a b c hac hcb hab]
  have hba : ¬(b - a = 0) := sub_ne_zero.mpr hab.ne'
  have himp : totalImpactsE mu sigma xm alpha [] [] = Except.ok [] := rfl
  rw [himp]
  simp only [hba, if_false]
  rfl

/-- Witness for C2 (amended): Triangular(0, 1, 2) with zero iterations
fails at the `prob2` division. -/
theorem C2_no_validation_witness :
    Task1E 0 2 1 0 [1] [1] 0 5 0 1 1 1 0 10 [] [] =
      Except.error (PyError.zeroDivision "prob2") :=
  C2_no_validation 0 2 1 0 [1] [1] 5 0 1 1 1 0 10 (by norm_num)
    (by norm_num) (by norm_num)
